import Mathlib

/-!
Verification of the movie-search HTTP gateway (`src/main.py`).

The development shallowly embeds the request-to-query pipeline of the
service: the query-string parameter model (pydantic v1 semantics:
per-field parsing, the `validate_for_pagination` validator, error
collection across all fields), the Elasticsearch query compilation
(`_get_es_search_body_param`, `_get_es_filter_path_param`,
`_get_es_sort_param`, the pagination arguments of the `movies` handler)
and the detail-route projection (the `movie` handler, in particular the
`int(...)` coercion of actor identifiers).

Machine-level conventions of the embedding:
  - Python integers are unbounded, so `Int` models them directly.
  - JSON numbers coming back from the engine are modelled as rationals
    (`ℚ`); Python `int(x)` on a number truncates toward zero, which is
    `Int.tdiv` on numerator and denominator.
  - Python `int(s)` on a string strips surrounding whitespace, accepts
    an optional single sign and decimal digits with single underscores
    between digits, and raises `ValueError` otherwise; `pyIntOfString`
    models it, returning `none` for `ValueError`.
  - Raw query strings are association lists `List (String × String)`;
    `List.lookup` returns the first binding, as `request.args.get` does.
-/

namespace YandexSearcher

/-- `class MoviesSortEnum(str, Enum)` from `src/main.py`. -/
inductive MoviesSortEnum where
  | id
  | title
  | imdb_rating
deriving DecidableEq, Repr

/-- The string value carried by each `MoviesSortEnum` member. -/
def MoviesSortEnum.val : MoviesSortEnum → String
  | .id => "id"
  | .title => "title"
  | .imdb_rating => "imdb_rating"

/-- `class MoviesSortOrderEnum(str, Enum)` from `src/main.py`. -/
inductive MoviesSortOrderEnum where
  | asc
  | desc
deriving DecidableEq, Repr

/-- The string value carried by each `MoviesSortOrderEnum` member. -/
def MoviesSortOrderEnum.val : MoviesSortOrderEnum → String
  | .asc => "asc"
  | .desc => "desc"

/-- Helper for `pyIntOfString`: parses a run of decimal digits in which a
single underscore may separate two digits (Python integer-literal rule).
`prevDigit` records whether the previous character was a digit, so a
leading, trailing, doubled or initial underscore is rejected, as is an
empty digit run. -/
def parseDigitsAux : List Char → Nat → Bool → Option Nat
  | [], acc, prevDigit => if prevDigit then some acc else none
  | c :: cs, acc, prevDigit =>
    if c.isDigit then
      parseDigitsAux cs (acc * 10 + (c.toNat - 48)) true
    else if c = '_' && prevDigit then
      parseDigitsAux cs acc false
    else
      none

/-- The characters Python `str.strip()` removes by default (the ASCII
whitespace characters; the exotic Unicode ones are out of scope). -/
def isPyWhitespace (c : Char) : Bool :=
  c = ' ' || c = '\t' || c = '\n' || c = '\r' || c = '\x0b' || c = '\x0c'

/-- Python `s.strip()` on the character list of `s`. -/
def stripChars (l : List Char) : List Char :=
  ((l.dropWhile isPyWhitespace).reverse.dropWhile isPyWhitespace).reverse

/-- Python `int(s)` for a string `s` : strip surrounding whitespace, allow
one optional sign, then decimal digits with single underscores between
digits. `none` models `ValueError`. -/
def pyIntOfString (s : String) : Option Int :=
  let t := stripChars s.toList
  match t with
  | '-' :: rest => (parseDigitsAux rest 0 false).map (fun n => -(n : Int))
  | '+' :: rest => (parseDigitsAux rest 0 false).map (fun n => (n : Int))
  | _ => (parseDigitsAux t 0 false).map (fun n => (n : Int))

/-- A value as handed to the pydantic model constructor: either a raw
query-string value (a Python `str`) or one of the already-typed defaults
supplied by `_get_movies_qs_params` (`50`, `1`, `MoviesSortEnum.id`,
`MoviesSortOrderEnum.asc`, `''`). -/
inductive QSValue where
  | ofInt (n : Int)
  | ofStr (s : String)
  | ofSort (e : MoviesSortEnum)
  | ofOrd (o : MoviesSortOrderEnum)
deriving DecidableEq, Repr

/-- The five keyword arguments `_get_movies_qs_params` builds for
`MoviesQSParamsModel(**...)`. -/
structure RawModelInput where
  limit : QSValue
  page : QSValue
  sort : QSValue
  sort_order : QSValue
  search : QSValue
deriving DecidableEq, Repr

/-- `_get_movies_qs_params(params)` from `src/main.py`: each of the five
keys is read from the raw query string with a documented default; a
present value is the raw string, an absent one the typed default.
No other key of `params` is read. -/
def _get_movies_qs_params (params : List (String × String)) : RawModelInput :=
  { limit := match params.lookup "limit" with
      | some s => .ofStr s
      | none => .ofInt 50
    page := match params.lookup "page" with
      | some s => .ofStr s
      | none => .ofInt 1
    sort := match params.lookup "sort" with
      | some s => .ofStr s
      | none => .ofSort .id
    sort_order := match params.lookup "sort_order" with
      | some s => .ofStr s
      | none => .ofOrd .asc
    search := match params.lookup "search" with
      | some s => .ofStr s
      | none => .ofStr "" }

/-- The reason a single field failed validation. `notGtZero` is the
failure raised inside `validate_for_pagination` (the source constructs a
`ValidationError` there; pydantic v1 catches the exception escaping the
validator and records it as a field error). -/
inductive ErrKind where
  | intParse
  | notGtZero
  | enumMismatch
deriving DecidableEq, Repr

/-- A per-field validation error as it appears in `exc.errors()`: the
field name (pydantic `loc`) and the reason. -/
structure FieldError where
  loc : String
  kind : ErrKind
deriving DecidableEq, Repr

/-- pydantic v1 parsing of an `int` field: an `int` passes through, a
`str` goes through Python `int(...)`; anything else is a type error. -/
def parseIntField : QSValue → Except ErrKind Int
  | .ofInt n => .ok n
  | .ofStr s =>
    match pyIntOfString s with
    | some n => .ok n
    | none => .error .intParse
  | _ => .error .intParse

/-- `validate_for_pagination` from `MoviesQSParamsModel`: rejects values
`<= 0`. -/
def validate_for_pagination (v : Int) : Except ErrKind Int :=
  if v ≤ 0 then .error .notGtZero else .ok v

/-- Full validation chain of the `limit` and `page` fields: the `int`
parse followed by the `validate_for_pagination` validator. -/
def validatePaginationField (v : QSValue) : Except ErrKind Int :=
  (parseIntField v).bind validate_for_pagination

/-- pydantic v1 validation of the `sort` field against `MoviesSortEnum`
(member lookup by value, case-sensitive). -/
def validateSortField : QSValue → Except ErrKind MoviesSortEnum
  | .ofSort e => .ok e
  | .ofStr s =>
    if s = "id" then .ok .id
    else if s = "title" then .ok .title
    else if s = "imdb_rating" then .ok .imdb_rating
    else .error .enumMismatch
  | _ => .error .enumMismatch

/-- pydantic v1 validation of the `sort_order` field against
`MoviesSortOrderEnum`. -/
def validateOrderField : QSValue → Except ErrKind MoviesSortOrderEnum
  | .ofOrd o => .ok o
  | .ofStr s =>
    if s = "asc" then .ok .asc
    else if s = "desc" then .ok .desc
    else .error .enumMismatch
  | _ => .error .enumMismatch

/-- pydantic v1 validation of the `search` field (`str`): a string is
accepted unchanged; the numeric and enum cases are coerced to their
string form (they never arise from `_get_movies_qs_params`). -/
def validateSearchField : QSValue → Except ErrKind String
  | .ofStr s => .ok s
  | .ofInt n => .ok (toString n)
  | .ofSort e => .ok e.val
  | .ofOrd o => .ok o.val

/-- The validated `MoviesQSParamsModel` from `src/main.py`. -/
structure MoviesQSParamsModel where
  limit : Int
  page : Int
  sort : MoviesSortEnum
  sort_order : MoviesSortOrderEnum
  search : String
deriving DecidableEq, Repr

/-- The singleton error list contributed by one field, tagged with the
field's name (pydantic `loc`). -/
def collectErr {α : Type} (loc : String) : Except ErrKind α → List FieldError
  | .ok _ => []
  | .error k => [⟨loc, k⟩]

/-- The full error list of a model construction, fields in declaration
order (`limit`, `page`, `sort`, `sort_order`, `search`), exactly as
pydantic v1 accumulates them into `ValidationError.errors()`. -/
def fieldErrorList (i : RawModelInput) : List FieldError :=
  collectErr "limit" (validatePaginationField i.limit) ++
  collectErr "page" (validatePaginationField i.page) ++
  collectErr "sort" (validateSortField i.sort) ++
  collectErr "sort_order" (validateOrderField i.sort_order) ++
  collectErr "search" (validateSearchField i.search)

/-- `MoviesQSParamsModel(**kwargs)`: every field is validated
independently; if any fails, the constructor raises a `ValidationError`
carrying the collected per-field errors of all failing fields. -/
def validateModel (i : RawModelInput) : Except (List FieldError) MoviesQSParamsModel :=
  match validatePaginationField i.limit, validatePaginationField i.page,
        validateSortField i.sort, validateOrderField i.sort_order,
        validateSearchField i.search with
  | .ok l, .ok p, .ok s, .ok o, .ok c => .ok ⟨l, p, s, o, c⟩
  | _, _, _, _, _ => .error (fieldErrorList i)

/-- The whole validation phase of the listing handler:
`MoviesQSParamsModel(**_get_movies_qs_params(request.args))`. -/
def moviesValidate (params : List (String × String)) :
    Except (List FieldError) MoviesQSParamsModel :=
  validateModel (_get_movies_qs_params params)

/-- The `body` argument handed to `es.search`: either the empty dict
(no query clause at all) or the `multi_match` clause with its query
string, fuzziness and weighted field list. -/
inductive SearchBody where
  | empty
  | multiMatch (query : String) (fuzziness : String) (fields : List String)
deriving DecidableEq, Repr

/-- `_get_es_search_body_param(query_value)` from `src/main.py`: the
empty string is falsy, giving the empty dict; otherwise the weighted
`multi_match` clause with fuzziness `auto`. The field strings use the
Elasticsearch boost syntax `name^weight`, weight 1 when absent. -/
def _get_es_search_body_param (query_value : String) : SearchBody :=
  if query_value = "" then
    .empty
  else
    .multiMatch query_value "auto"
      ["title^5", "description^4", "genre^3", "actors_names^3",
       "writers_names^2", "director"]

/-- `ShortMovieModel.__fields__.keys()` in declaration order. -/
def shortMovieFields : List String := ["id", "title", "imdb_rating"]

/-- `_get_es_filter_path_param()` from `src/main.py`. -/
def _get_es_filter_path_param : List String :=
  shortMovieFields.map (fun field => "hits.hits._source." ++ field)

/-- `_get_es_sort_param(field, sort_order)` from `src/main.py`: the
one-entry remap table sends `title` to `title.raw`; every other field
passes through (`dict.get` default), and the direction is appended
after a colon. -/
def _get_es_sort_param (field : String) (sort_order : String) : String :=
  (if field = "title" then "title.raw" else field) ++ ":" ++ sort_order

/-- The argument bundle of the `es.search` call in the `movies` handler:
body, filter path, `from_`, `size` and `sort`. -/
structure CompiledQuery where
  body : SearchBody
  filter_path : List String
  from_ : Int
  size : Int
  sort : String
deriving DecidableEq, Repr

/-- The `es.search(...)` argument list built by the `movies` handler
from the validated parameters. -/
def compileQuery (m : MoviesQSParamsModel) : CompiledQuery :=
  { body := _get_es_search_body_param m.search
    filter_path := _get_es_filter_path_param
    from_ := (m.page - 1) * m.limit
    size := m.limit
    sort := _get_es_sort_param m.sort.val m.sort_order.val }

/-- The `_source` object of one listing hit, holding exactly the
projected fields. -/
structure EsSource where
  id : String
  title : String
  imdb_rating : Option ℚ
deriving DecidableEq, Repr

/-- One element of `es_movies['hits']['hits']`. -/
structure EsHit where
  source : EsSource
deriving DecidableEq, Repr

/-- `ShortMovieModel` from `src/main.py`. -/
structure ShortMovieModel where
  id : String
  title : String
  imdb_rating : Option ℚ
deriving DecidableEq, Repr

/-- `ShortMovieModel.from_es_hit(es_hit)`. -/
def ShortMovieModel.from_es_hit (es_hit : EsHit) : ShortMovieModel :=
  { id := es_hit.source.id
    title := es_hit.source.title
    imdb_rating := es_hit.source.imdb_rating }

/-- `QS_PARAMS_VALIDATION_ERROR = 422` from `src/main.py`. -/
def QS_PARAMS_VALIDATION_ERROR : Nat := 422

/-- The observable outcome of the listing route: either the 422
response with body `\x7b'detail': exc.errors()\x7d`, or the 200 response
whose body is the list of projected movies. -/
inductive MoviesResponse where
  | validationFailed (detail : List FieldError)
  | ok (body : List ShortMovieModel)
deriving DecidableEq, Repr

/-- HTTP status of a listing response. -/
def MoviesResponse.status : MoviesResponse → Nat
  | .validationFailed _ => QS_PARAMS_VALIDATION_ERROR
  | .ok _ => 200

/-- The `movies` handler, with the Elasticsearch gateway abstracted as a
function from the compiled search arguments to the hits it returns:
validate, on failure answer 422 with the collected errors, otherwise
search and project each hit through `ShortMovieModel.from_es_hit`. -/
def movies (params : List (String × String))
    (es : CompiledQuery → List EsHit) : MoviesResponse :=
  match moviesValidate params with
  | .error errs => .validationFailed errs
  | .ok m => .ok ((es (compileQuery m)).map ShortMovieModel.from_es_hit)

/-- A JSON value stored in a detail document field: a number (modelled
as a rational), a string, or null. Fields the handler passes through
untouched keep this type in the response. -/
inductive JVal where
  | num (q : ℚ)
  | str (s : String)
  | null
deriving DecidableEq, Repr

/-- Python `int(x)` as applied to a JSON value: a number truncates
toward zero (truncating division of numerator by denominator), a string goes
through the integer-literal parse, and `None` raises. `none` models the
uncaught `ValueError`/`TypeError`. -/
def pyInt : JVal → Option Int
  | .num q => some (Int.tdiv q.num (q.den : Int))
  | .str s => pyIntOfString s
  | .null => none

/-- One entry of the `actors` list of a detail document. -/
structure ActorDoc where
  id : JVal
  name : String
deriving DecidableEq, Repr

/-- The `_source` of a detail document: the eight fields the `movie`
handler reads. Fields other than `actors` are passed through to the
response unchanged, so they stay opaque `JVal`s. -/
structure MovieDoc where
  id : JVal
  title : JVal
  description : JVal
  imdb_rating : JVal
  writers : JVal
  actors : List ActorDoc
  genre : JVal
  director : JVal
deriving DecidableEq, Repr

/-- The 200 body of the detail route; `actors` is the coerced list of
`\x7bid: int, name: str\x7d` pairs. -/
structure MovieDetailResp where
  id : JVal
  title : JVal
  description : JVal
  imdb_rating : JVal
  writers : JVal
  actors : List (Int × String)
  genre : JVal
  director : JVal
deriving DecidableEq, Repr

/-- The list comprehension
`[\x7b'id': int(m['id']), 'name': m['name']\x7d for m in es_movie['actors']]`:
it stops at the first uncoercible identifier, and no partial list
escapes the comprehension. -/
def coerceActors : List ActorDoc → Option (List (Int × String))
  | [] => some []
  | a :: rest =>
    match pyInt a.id with
    | none => none
    | some n => (coerceActors rest).map (fun l => (n, a.name) :: l)

/-- The observable outcome of the detail route: 404 from `abort(404)`
on a missing document, 500 from the uncaught coercion error, or the 200
body. -/
inductive MovieResponse where
  | notFound
  | internalError
  | ok (body : MovieDetailResp)
deriving DecidableEq, Repr

/-- HTTP status of a detail response. -/
def MovieResponse.status : MovieResponse → Nat
  | .notFound => 404
  | .internalError => 500
  | .ok _ => 200

/-- The `movie` handler, with the Elasticsearch lookup abstracted as its
result: `none` models `NotFoundError` (the handler aborts with 404);
otherwise the eight fields are projected, and an actor identifier that
`int(...)` cannot coerce raises out of the handler, which the framework
turns into a 500 response. -/
def movie (lookupResult : Option MovieDoc) : MovieResponse :=
  match lookupResult with
  | none => .notFound
  | some d =>
    match coerceActors d.actors with
    | none => .internalError
    | some acts =>
      .ok { id := d.id, title := d.title, description := d.description
            imdb_rating := d.imdb_rating, writers := d.writers
            actors := acts, genre := d.genre, director := d.director }

/-- A raw query-string value for `limit` or `page` that the claims call
invalid: it fails the Python integer parse, or parses to a value `<= 0`. -/
def badPagination (s : String) : Bool :=
  match pyIntOfString s with
  | none => true
  | some n => n ≤ 0

/-- The weighted field list of the `multi_match` clause, in source
order. -/
def esSearchFields : List String :=
  ["title^5", "description^4", "genre^3", "actors_names^3",
   "writers_names^2", "director"]

/-- The characters of an Elasticsearch boost entry before the `^`. -/
def entryNameChars : List Char → List Char
  | [] => []
  | c :: cs => if c = '^' then [] else c :: entryNameChars cs

/-- The characters of an Elasticsearch boost entry after the `^`, when
a `^` is present. -/
def entryWeightChars : List Char → Option (List Char)
  | [] => none
  | c :: cs => if c = '^' then some cs else entryWeightChars cs

/-- The field name of an Elasticsearch boost entry (`"title^5"` gives
`"title"`, `"director"` gives `"director"`). -/
def entryName (s : String) : String := ⟨entryNameChars s.toList⟩

/-- The boost weight of an Elasticsearch boost entry: the number after
the `^`, and the engine default 1 when no `^` is present. -/
def entryWeight (s : String) : Nat :=
  match entryWeightChars s.toList with
  | none => 1
  | some w => (parseDigitsAux w 0 false).getD 1

/-- The boost weight a field list assigns to a named field (0 when the
field does not occur). -/
def fieldWeight (fields : List String) (name : String) : Nat :=
  match fields.find? (fun e => entryName e == name) with
  | some e => entryWeight e
  | none => 0

/-- A detail document whose single actor has the fractional numeric id
3.9 (= `mkRat 39 10`). -/
def fracActorDoc : MovieDoc :=
  { id := .str "1", title := .str "t", description := .str "d"
    imdb_rating := .num (mkRat 8 1), writers := .null
    actors := [⟨.num (mkRat 39 10), "alice"⟩]
    genre := .null, director := .str "x" }

/-- A detail document whose single actor has the fractional numeric id
-3.9 (= `mkRat (-39) 10`). -/
def negFracActorDoc : MovieDoc :=
  { id := .str "2", title := .str "t", description := .str "d"
    imdb_rating := .null, writers := .null
    actors := [⟨.num (mkRat (-39) 10), "neg"⟩]
    genre := .null, director := .null }

/-- A detail document whose single actor id is the numeric string
`"3.9"`, which Python `int(...)` rejects. -/
def fracStringActorDoc : MovieDoc :=
  { id := .str "3", title := .str "t", description := .str "d"
    imdb_rating := .null, writers := .null
    actors := [⟨.str "3.9", "alice"⟩]
    genre := .null, director := .null }

/-- A detail document with one coercible and one uncoercible actor id. -/
def badActorDoc : MovieDoc :=
  { id := .str "4", title := .str "t", description := .str "d"
    imdb_rating := .num (mkRat 8 1), writers := .null
    actors := [⟨.str "7", "bob"⟩, ⟨.str "abc", "alice"⟩]
    genre := .null, director := .str "x" }

/-- A detail document whose actor ids are all coercible. -/
def goodActorDoc : MovieDoc :=
  { id := .str "5", title := .str "t", description := .str "d"
    imdb_rating := .null, writers := .null
    actors := [⟨.num (mkRat 39 10), "alice"⟩, ⟨.str "7", "bob"⟩]
    genre := .null, director := .null }

/-! ### Helper lemmas about the validation phase -/

theorem collectErr_loc {α : Type} (loc : String) (r : Except ErrKind α)
    (e : FieldError) (h : e ∈ collectErr loc r) : e.loc = loc := by
  cases r <;> simp [collectErr] at h
  simp [h]

theorem collectErr_mem (loc : String) (k : ErrKind) {α : Type}
    {r : Except ErrKind α} (h : r = .error k) :
    (⟨loc, k⟩ : FieldError) ∈ collectErr loc r := by
  subst h; simp [collectErr]

theorem validateModel_error_eq (i : RawModelInput) (errs : List FieldError)
    (h : validateModel i = .error errs) : errs = fieldErrorList i := by
  unfold validateModel at h
  rcases h1 : validatePaginationField i.limit with k1 | v1 <;>
    rcases h2 : validatePaginationField i.page with k2 | v2 <;>
      rcases h3 : validateSortField i.sort with k3 | v3 <;>
        rcases h4 : validateOrderField i.sort_order with k4 | v4 <;>
          rcases h5 : validateSearchField i.search with k5 | v5 <;>
            rw [h1, h2, h3, h4, h5] at h <;> simp_all

theorem validateModel_ok_fields (i : RawModelInput) (m : MoviesQSParamsModel)
    (h : validateModel i = .ok m) :
    validatePaginationField i.limit = .ok m.limit ∧
    validatePaginationField i.page = .ok m.page ∧
    validateSortField i.sort = .ok m.sort ∧
    validateOrderField i.sort_order = .ok m.sort_order ∧
    validateSearchField i.search = .ok m.search := by
  unfold validateModel at h
  rcases h1 : validatePaginationField i.limit with k1 | v1 <;>
    rcases h2 : validatePaginationField i.page with k2 | v2 <;>
      rcases h3 : validateSortField i.sort with k3 | v3 <;>
        rcases h4 : validateOrderField i.sort_order with k4 | v4 <;>
          rcases h5 : validateSearchField i.search with k5 | v5 <;>
            rw [h1, h2, h3, h4, h5] at h <;> simp_all
  subst h
  simp

theorem validateModel_error_of_limit (i : RawModelInput) (k : ErrKind)
    (h : validatePaginationField i.limit = .error k) :
    validateModel i = .error (fieldErrorList i) := by
  unfold validateModel
  rw [h]

theorem validateModel_error_of_page (i : RawModelInput) (k : ErrKind)
    (h : validatePaginationField i.page = .error k) :
    validateModel i = .error (fieldErrorList i) := by
  unfold validateModel
  rcases h1 : validatePaginationField i.limit with k1 | v1 <;> rw [h]

theorem validateModel_error_of_sort (i : RawModelInput) (k : ErrKind)
    (h : validateSortField i.sort = .error k) :
    validateModel i = .error (fieldErrorList i) := by
  unfold validateModel
  rcases h1 : validatePaginationField i.limit with k1 | v1 <;>
    rcases h2 : validatePaginationField i.page with k2 | v2 <;> rw [h]

theorem limit_err_mem (i : RawModelInput) (k : ErrKind)
    (h : validatePaginationField i.limit = .error k) :
    (⟨"limit", k⟩ : FieldError) ∈ fieldErrorList i := by
  unfold fieldErrorList
  rw [h]
  simp [collectErr]

theorem page_err_mem (i : RawModelInput) (k : ErrKind)
    (h : validatePaginationField i.page = .error k) :
    (⟨"page", k⟩ : FieldError) ∈ fieldErrorList i := by
  unfold fieldErrorList
  rw [h]
  simp [collectErr]

theorem sort_err_mem (i : RawModelInput) (k : ErrKind)
    (h : validateSortField i.sort = .error k) :
    (⟨"sort", k⟩ : FieldError) ∈ fieldErrorList i := by
  unfold fieldErrorList
  rw [h]
  simp [collectErr]

theorem badPagination_error (s : String) (h : badPagination s = true) :
    ∃ k, validatePaginationField (.ofStr s) = .error k := by
  unfold badPagination at h
  rcases hp : pyIntOfString s with _ | n
  · refine ⟨.intParse, ?_⟩
    simp only [validatePaginationField, parseIntField, hp]
    rfl
  · rw [hp] at h
    simp only [decide_eq_true_eq] at h
    refine ⟨.notGtZero, ?_⟩
    simp only [validatePaginationField, parseIntField, hp]
    simp [Except.bind, validate_for_pagination, h]

theorem mem_fieldErrorList (i : RawModelInput) (e : FieldError)
    (h : e ∈ fieldErrorList i) :
    e ∈ collectErr "limit" (validatePaginationField i.limit) ∨
    e ∈ collectErr "page" (validatePaginationField i.page) ∨
    e ∈ collectErr "sort" (validateSortField i.sort) ∨
    e ∈ collectErr "sort_order" (validateOrderField i.sort_order) ∨
    e ∈ collectErr "search" (validateSearchField i.search) := by
  unfold fieldErrorList at h
  simpa [List.mem_append, or_assoc] using h

theorem no_err_of_ok_limit (i : RawModelInput) (v : Int)
    (hv : validatePaginationField i.limit = .ok v) :
    ∀ e ∈ fieldErrorList i, e.loc ≠ "limit" := by
  intro e he
  rcases mem_fieldErrorList i e he with h | h | h | h | h <;>
    first
      | (rw [hv] at h; simp [collectErr] at h)
      | (have hloc := collectErr_loc _ _ _ h; rw [hloc]; decide)

theorem no_err_of_ok_page (i : RawModelInput) (v : Int)
    (hv : validatePaginationField i.page = .ok v) :
    ∀ e ∈ fieldErrorList i, e.loc ≠ "page" := by
  intro e he
  rcases mem_fieldErrorList i e he with h | h | h | h | h <;>
    first
      | (rw [hv] at h; simp [collectErr] at h)
      | (have hloc := collectErr_loc _ _ _ h; rw [hloc]; decide)

theorem no_err_of_ok_sort (i : RawModelInput) (v : MoviesSortEnum)
    (hv : validateSortField i.sort = .ok v) :
    ∀ e ∈ fieldErrorList i, e.loc ≠ "sort" := by
  intro e he
  rcases mem_fieldErrorList i e he with h | h | h | h | h <;>
    first
      | (rw [hv] at h; simp [collectErr] at h)
      | (have hloc := collectErr_loc _ _ _ h; rw [hloc]; decide)

theorem no_err_of_ok_order (i : RawModelInput) (v : MoviesSortOrderEnum)
    (hv : validateOrderField i.sort_order = .ok v) :
    ∀ e ∈ fieldErrorList i, e.loc ≠ "sort_order" := by
  intro e he
  rcases mem_fieldErrorList i e he with h | h | h | h | h <;>
    first
      | (rw [hv] at h; simp [collectErr] at h)
      | (have hloc := collectErr_loc _ _ _ h; rw [hloc]; decide)

theorem no_err_of_ok_search (i : RawModelInput) (v : String)
    (hv : validateSearchField i.search = .ok v) :
    ∀ e ∈ fieldErrorList i, e.loc ≠ "search" := by
  intro e he
  rcases mem_fieldErrorList i e he with h | h | h | h | h <;>
    first
      | (rw [hv] at h; simp [collectErr] at h)
      | (have hloc := collectErr_loc _ _ _ h; rw [hloc]; decide)

theorem coerceActors_none_of_bad (l : List ActorDoc)
    (h : ∃ a ∈ l, pyInt a.id = none) : coerceActors l = none := by
  induction l with
  | nil => simp at h
  | cons a rest ih =>
    rcases h with ⟨b, hb, hbnone⟩
    rcases List.mem_cons.mp hb with hba | hbr
    · subst hba
      simp [coerceActors, hbnone]
    · cases hpa : pyInt a.id with
      | none => simp [coerceActors, hpa]
      | some n => simp [coerceActors, hpa, ih ⟨b, hbr, hbnone⟩]

theorem coerceActors_all_some (l : List ActorDoc)
    (h : ∀ a ∈ l, (pyInt a.id).isSome) :
    coerceActors l
      = some (l.map (fun a => ((pyInt a.id).getD 0, a.name))) := by
  induction l with
  | nil => rfl
  | cons a rest ih =>
    have ha := h a (List.mem_cons_self a rest)
    cases hpa : pyInt a.id with
    | none => rw [hpa] at ha; simp at ha
    | some n =>
      have hrest := ih (fun b hb => h b (List.mem_cons_of_mem a hb))
      simp [coerceActors, hpa, hrest]

/-! ### The claims -/

/-- Claim C1: for every raw query-string input whose `limit` or `page`
value is non-numeric or parses to an integer `<= 0`, validation fails
with a field-scoped error naming that field, and the listing handler
responds with status 422 and a body whose detail list carries the
per-field errors. -/
theorem claim_C1_bad_pagination_422 :
    ∀ (params : List (String × String)) (es : CompiledQuery → List EsHit),
      (∀ s, params.lookup "limit" = some s → badPagination s = true →
        ∃ errs, movies params es = .validationFailed errs ∧
          (movies params es).status = 422 ∧ ∃ e ∈ errs, e.loc = "limit") ∧
      (∀ s, params.lookup "page" = some s → badPagination s = true →
        ∃ errs, movies params es = .validationFailed errs ∧
          (movies params es).status = 422 ∧ ∃ e ∈ errs, e.loc = "page") := by
  intro params es
  constructor
  · intro s hs hbad
    obtain ⟨k, hk⟩ := badPagination_error s hbad
    have hlim : (_get_movies_qs_params params).limit = .ofStr s := by
      simp [_get_movies_qs_params, hs]
    have hk' : validatePaginationField (_get_movies_qs_params params).limit
        = .error k := by rw [hlim]; exact hk
    have herr := validateModel_error_of_limit _ k hk'
    refine ⟨fieldErrorList (_get_movies_qs_params params), ?_, ?_,
      ⟨"limit", k⟩, limit_err_mem _ k hk', rfl⟩
    · simp [movies, moviesValidate, herr]
    · simp [movies, moviesValidate, herr, MoviesResponse.status,
        QS_PARAMS_VALIDATION_ERROR]
  · intro s hs hbad
    obtain ⟨k, hk⟩ := badPagination_error s hbad
    have hpg : (_get_movies_qs_params params).page = .ofStr s := by
      simp [_get_movies_qs_params, hs]
    have hk' : validatePaginationField (_get_movies_qs_params params).page
        = .error k := by rw [hpg]; exact hk
    have herr := validateModel_error_of_page _ k hk'
    refine ⟨fieldErrorList (_get_movies_qs_params params), ?_, ?_,
      ⟨"page", k⟩, page_err_mem _ k hk', rfl⟩
    · simp [movies, moviesValidate, herr]
    · simp [movies, moviesValidate, herr, MoviesResponse.status,
        QS_PARAMS_VALIDATION_ERROR]

/-- Witness for C1 at the concrete request `limit=0`. -/
theorem claim_C1_bad_pagination_422_witness :
    ∃ errs, movies [("limit", "0")] (fun _ => []) = .validationFailed errs ∧
      (movies [("limit", "0")] (fun _ => [])).status = 422 ∧
      ∃ e ∈ errs, e.loc = "limit" :=
  (claim_C1_bad_pagination_422 [("limit", "0")] (fun _ => [])).1 "0" rfl rfl

/-- Claim C2: when several fields are invalid at once (a bad `limit`, a
bad `page` and an unknown `sort` value together), validation returns the
errors of all failing fields in one result instead of stopping at the
first failure. -/
theorem claim_C2_all_errors_collected :
    ∀ (params : List (String × String)) (es : CompiledQuery → List EsHit)
      (sl sp ss : String),
      params.lookup "limit" = some sl → badPagination sl = true →
      params.lookup "page" = some sp → badPagination sp = true →
      params.lookup "sort" = some ss →
      ss ≠ "id" → ss ≠ "title" → ss ≠ "imdb_rating" →
      ∃ errs, movies params es = .validationFailed errs ∧
        (∃ e ∈ errs, e.loc = "limit") ∧
        (∃ e ∈ errs, e.loc = "page") ∧
        ∃ e ∈ errs, e.loc = "sort" := by
  intro params es sl sp ss hsl hbadl hsp hbadp hss h1 h2 h3
  obtain ⟨kl, hkl⟩ := badPagination_error sl hbadl
  obtain ⟨kp, hkp⟩ := badPagination_error sp hbadp
  have hlim : (_get_movies_qs_params params).limit = .ofStr sl := by
    simp [_get_movies_qs_params, hsl]
  have hpg : (_get_movies_qs_params params).page = .ofStr sp := by
    simp [_get_movies_qs_params, hsp]
  have hso : (_get_movies_qs_params params).sort = .ofStr ss := by
    simp [_get_movies_qs_params, hss]
  have hkl' : validatePaginationField (_get_movies_qs_params params).limit
      = .error kl := by rw [hlim]; exact hkl
  have hkp' : validatePaginationField (_get_movies_qs_params params).page
      = .error kp := by rw [hpg]; exact hkp
  have hks' : validateSortField (_get_movies_qs_params params).sort
      = .error .enumMismatch := by
    rw [hso]; simp [validateSortField, h1, h2, h3]
  have herr := validateModel_error_of_limit _ kl hkl'
  exact ⟨fieldErrorList (_get_movies_qs_params params),
    by simp [movies, moviesValidate, herr],
    ⟨⟨"limit", kl⟩, limit_err_mem _ kl hkl', rfl⟩,
    ⟨⟨"page", kp⟩, page_err_mem _ kp hkp', rfl⟩,
    ⟨⟨"sort", .enumMismatch⟩, sort_err_mem _ _ hks', rfl⟩⟩

/-- Witness for C2 at the concrete request
`limit=0&page=-1&sort=bogus`. -/
theorem claim_C2_all_errors_collected_witness :
    ∃ errs,
      movies [("limit", "0"), ("page", "-1"), ("sort", "bogus")] (fun _ => [])
        = .validationFailed errs ∧
      (∃ e ∈ errs, e.loc = "limit") ∧
      (∃ e ∈ errs, e.loc = "page") ∧
      ∃ e ∈ errs, e.loc = "sort" :=
  claim_C2_all_errors_collected
    [("limit", "0"), ("page", "-1"), ("sort", "bogus")] (fun _ => [])
    "0" "-1" "bogus" rfl rfl rfl rfl rfl
    (by decide) (by decide) (by decide)

/-- Claim C3: a missing key never makes validation fail, and each of the
five keys defaults independently: a fully default request validates to
`limit=50, page=1, sort=id, sort_order=asc, search=""`; whenever
validation succeeds, each missing key shows up as its default in the
resulting model; and a missing key contributes no error when validation
fails on other keys. -/
theorem claim_C3_defaults :
    ∀ params : List (String × String),
      (params.lookup "limit" = none → params.lookup "page" = none →
        params.lookup "sort" = none → params.lookup "sort_order" = none →
        params.lookup "search" = none →
        moviesValidate params = .ok ⟨50, 1, .id, .asc, ""⟩) ∧
      (∀ m, moviesValidate params = .ok m →
        (params.lookup "limit" = none → m.limit = 50) ∧
        (params.lookup "page" = none → m.page = 1) ∧
        (params.lookup "sort" = none → m.sort = .id) ∧
        (params.lookup "sort_order" = none → m.sort_order = .asc) ∧
        (params.lookup "search" = none → m.search = "")) ∧
      (∀ errs, moviesValidate params = .error errs →
        (params.lookup "limit" = none → ∀ e ∈ errs, e.loc ≠ "limit") ∧
        (params.lookup "page" = none → ∀ e ∈ errs, e.loc ≠ "page") ∧
        (params.lookup "sort" = none → ∀ e ∈ errs, e.loc ≠ "sort") ∧
        (params.lookup "sort_order" = none →
          ∀ e ∈ errs, e.loc ≠ "sort_order") ∧
        (params.lookup "search" = none → ∀ e ∈ errs, e.loc ≠ "search")) := by
  intro params
  refine ⟨?_, ?_, ?_⟩
  · intro h1 h2 h3 h4 h5
    have hi : _get_movies_qs_params params
        = ⟨.ofInt 50, .ofInt 1, .ofSort .id, .ofOrd .asc, .ofStr ""⟩ := by
      simp [_get_movies_qs_params, h1, h2, h3, h4, h5]
    unfold moviesValidate
    rw [hi]
    rfl
  · intro m hm
    obtain ⟨hl, hp, hs, ho, hc⟩ := validateModel_ok_fields _ m hm
    refine ⟨?_, ?_, ?_, ?_, ?_⟩
    · intro h1
      have : (_get_movies_qs_params params).limit = .ofInt 50 := by
        simp [_get_movies_qs_params, h1]
      rw [this] at hl
      have : Except.ok (ε := ErrKind) (50 : Int) = .ok m.limit := hl
      simpa using this.symm
    · intro h2
      have : (_get_movies_qs_params params).page = .ofInt 1 := by
        simp [_get_movies_qs_params, h2]
      rw [this] at hp
      have : Except.ok (ε := ErrKind) (1 : Int) = .ok m.page := hp
      simpa using this.symm
    · intro h3
      have : (_get_movies_qs_params params).sort = .ofSort .id := by
        simp [_get_movies_qs_params, h3]
      rw [this] at hs
      have : Except.ok (ε := ErrKind) MoviesSortEnum.id = .ok m.sort := hs
      simpa using this.symm
    · intro h4
      have : (_get_movies_qs_params params).sort_order = .ofOrd .asc := by
        simp [_get_movies_qs_params, h4]
      rw [this] at ho
      have : Except.ok (ε := ErrKind) MoviesSortOrderEnum.asc
          = .ok m.sort_order := ho
      simpa using this.symm
    · intro h5
      have : (_get_movies_qs_params params).search = .ofStr "" := by
        simp [_get_movies_qs_params, h5]
      rw [this] at hc
      have : Except.ok (ε := ErrKind) "" = .ok m.search := hc
      simpa using this.symm
  · intro errs herrs
    have heq := validateModel_error_eq _ errs herrs
    subst heq
    refine ⟨?_, ?_, ?_, ?_, ?_⟩
    · intro h1
      have hl : (_get_movies_qs_params params).limit = .ofInt 50 := by
        simp [_get_movies_qs_params, h1]
      exact no_err_of_ok_limit _ 50 (by rw [hl]; rfl)
    · intro h2
      have hp : (_get_movies_qs_params params).page = .ofInt 1 := by
        simp [_get_movies_qs_params, h2]
      exact no_err_of_ok_page _ 1 (by rw [hp]; rfl)
    · intro h3
      have hs : (_get_movies_qs_params params).sort = .ofSort .id := by
        simp [_get_movies_qs_params, h3]
      exact no_err_of_ok_sort _ .id (by rw [hs]; rfl)
    · intro h4
      have ho : (_get_movies_qs_params params).sort_order = .ofOrd .asc := by
        simp [_get_movies_qs_params, h4]
      exact no_err_of_ok_order _ .asc (by rw [ho]; rfl)
    · intro h5
      have hc : (_get_movies_qs_params params).search = .ofStr "" := by
        simp [_get_movies_qs_params, h5]
      exact no_err_of_ok_search _ "" (by rw [hc]; rfl)

/-- Witness for C3 at the empty query string. -/
theorem claim_C3_defaults_witness :
    moviesValidate [] = .ok ⟨50, 1, .id, .asc, ""⟩ :=
  (claim_C3_defaults []).1 rfl rfl rfl rfl rfl

/-- Claim C4: a valid parameter set with empty `search` compiles to a
query with no full-text clause at all (the empty body, not a clause
searching for the empty string). -/
theorem claim_C4_empty_search_no_clause :
    ∀ m : MoviesQSParamsModel, m.search = "" →
      (compileQuery m).body = .empty := by
  intro m h
  simp [compileQuery, _get_es_search_body_param, h]

/-- Witness for C4 at the fully-default parameter set. -/
theorem claim_C4_empty_search_no_clause_witness :
    (compileQuery ⟨50, 1, .id, .asc, ""⟩).body = .empty :=
  claim_C4_empty_search_no_clause ⟨50, 1, .id, .asc, ""⟩ rfl

/-- Claim C5: a valid parameter set with non-empty `search` compiles to
the weighted `multi_match` clause with fuzziness `auto` and field
weights `title` 5, `description` 4, `genre` 3, `actors_names` 3,
`writers_names` 2, `director` 1, so the weights satisfy
title > description > genre = actors_names > writers_names >
director. -/
theorem claim_C5_weighted_multi_match :
    ∀ m : MoviesQSParamsModel, m.search ≠ "" →
      (compileQuery m).body = .multiMatch m.search "auto" esSearchFields ∧
      fieldWeight esSearchFields "title" = 5 ∧
      fieldWeight esSearchFields "description" = 4 ∧
      fieldWeight esSearchFields "genre" = 3 ∧
      fieldWeight esSearchFields "actors_names" = 3 ∧
      fieldWeight esSearchFields "writers_names" = 2 ∧
      fieldWeight esSearchFields "director" = 1 ∧
      fieldWeight esSearchFields "title"
        > fieldWeight esSearchFields "description" ∧
      fieldWeight esSearchFields "description"
        > fieldWeight esSearchFields "genre" ∧
      fieldWeight esSearchFields "genre"
        = fieldWeight esSearchFields "actors_names" ∧
      fieldWeight esSearchFields "actors_names"
        > fieldWeight esSearchFields "writers_names" ∧
      fieldWeight esSearchFields "writers_names"
        > fieldWeight esSearchFields "director" := by
  intro m h
  refine ⟨?_, by decide, by decide, by decide, by decide, by decide,
    by decide, by decide, by decide, by decide, by decide, by decide⟩
  simp [compileQuery, _get_es_search_body_param, esSearchFields, h]

/-- Witness for C5 at the parameter set searching for `matrix`. -/
theorem claim_C5_weighted_multi_match_witness :
    (compileQuery ⟨50, 1, .id, .asc, "matrix"⟩).body
      = .multiMatch "matrix" "auto" esSearchFields ∧
    fieldWeight esSearchFields "title" = 5 ∧
    fieldWeight esSearchFields "description" = 4 ∧
    fieldWeight esSearchFields "genre" = 3 ∧
    fieldWeight esSearchFields "actors_names" = 3 ∧
    fieldWeight esSearchFields "writers_names" = 2 ∧
    fieldWeight esSearchFields "director" = 1 ∧
    fieldWeight esSearchFields "title"
      > fieldWeight esSearchFields "description" ∧
    fieldWeight esSearchFields "description"
      > fieldWeight esSearchFields "genre" ∧
    fieldWeight esSearchFields "genre"
      = fieldWeight esSearchFields "actors_names" ∧
    fieldWeight esSearchFields "actors_names"
      > fieldWeight esSearchFields "writers_names" ∧
    fieldWeight esSearchFields "writers_names"
      > fieldWeight esSearchFields "director" :=
  claim_C5_weighted_multi_match ⟨50, 1, .id, .asc, "matrix"⟩ (by decide)

/-- Claim C6: the compiled pagination window is
`offset = (page - 1) * limit` and `count = limit`; through the whole
pipeline, `page=1&limit=50` gives offset 0 and `page=3&limit=20` gives
offset 40. -/
theorem claim_C6_pagination_window :
    ∀ m : MoviesQSParamsModel,
      ((compileQuery m).from_ = (m.page - 1) * m.limit ∧
        (compileQuery m).size = m.limit) ∧
      (moviesValidate [("page", "1"), ("limit", "50")]).map
          (fun v => ((compileQuery v).from_, (compileQuery v).size))
        = .ok (0, 50) ∧
      (moviesValidate [("page", "3"), ("limit", "20")]).map
          (fun v => ((compileQuery v).from_, (compileQuery v).size))
        = .ok (40, 20) := by
  intro m
  exact ⟨⟨rfl, rfl⟩, rfl, rfl⟩

/-- Claim C7: the compiled sort key remaps the `title` sort field to the
raw sortable variant `title.raw`, passes `id` and `imdb_rating` through
unchanged, and passes the direction through unchanged after the
colon. -/
theorem claim_C7_sort_key_remap :
    ∀ m : MoviesQSParamsModel,
      (compileQuery m).sort
        = _get_es_sort_param m.sort.val m.sort_order.val ∧
      ∀ o : MoviesSortOrderEnum,
        _get_es_sort_param MoviesSortEnum.title.val o.val
          = "title.raw:" ++ o.val ∧
        _get_es_sort_param MoviesSortEnum.id.val o.val
          = "id:" ++ o.val ∧
        _get_es_sort_param MoviesSortEnum.imdb_rating.val o.val
          = "imdb_rating:" ++ o.val := by
  intro m
  refine ⟨rfl, ?_⟩
  intro o
  cases o <;> exact ⟨rfl, rfl, rfl⟩

/-- Claim C8: an actor entry whose id `int(...)` cannot coerce fails the
whole detail response with a 500, never emitting a partial actor list;
when every actor id coerces, the response carries, for each entry, the
integer coercion of its raw id. -/
theorem claim_C8_actor_id_all_or_nothing :
    ∀ doc : MovieDoc,
      ((∃ a ∈ doc.actors, pyInt a.id = none) →
        movie (some doc) = .internalError ∧
        (movie (some doc)).status = 500) ∧
      ((∀ a ∈ doc.actors, (pyInt a.id).isSome) →
        ∃ r, movie (some doc) = .ok r ∧ (movie (some doc)).status = 200 ∧
          r.actors = doc.actors.map
            (fun a => ((pyInt a.id).getD 0, a.name))) := by
  intro doc
  constructor
  · intro h
    have hc := coerceActors_none_of_bad doc.actors h
    constructor <;> simp [movie, hc, MovieResponse.status]
  · intro h
    have hc := coerceActors_all_some doc.actors h
    refine ⟨⟨doc.id, doc.title, doc.description, doc.imdb_rating,
        doc.writers,
        doc.actors.map (fun a => ((pyInt a.id).getD 0, a.name)),
        doc.genre, doc.director⟩, ?_, ?_, rfl⟩
    · simp [movie, hc]
    · simp [movie, hc, MovieResponse.status]

/-- Witness for C8: the document with an uncoercible actor id answers
500, and the all-coercible document answers 200 with the coerced
ids. -/
theorem claim_C8_actor_id_all_or_nothing_witness :
    (movie (some badActorDoc) = .internalError ∧
      (movie (some badActorDoc)).status = 500) ∧
    ∃ r, movie (some goodActorDoc) = .ok r ∧
      (movie (some goodActorDoc)).status = 200 ∧
      r.actors = goodActorDoc.actors.map
        (fun a => ((pyInt a.id).getD 0, a.name)) :=
  ⟨(claim_C8_actor_id_all_or_nothing badActorDoc).1
      ⟨⟨.str "abc", "alice"⟩, by decide, rfl⟩,
    (claim_C8_actor_id_all_or_nothing goodActorDoc).2 (by decide)⟩

/-- Claim C9: query-string keys other than `limit`, `page`, `sort`,
`sort_order` and `search` never influence validation, the compiled
query, or the listing response: two raw inputs agreeing on those five
keys are indistinguishable. -/
theorem claim_C9_extra_keys_ignored :
    ∀ p1 p2 : List (String × String),
      (∀ k ∈ ["limit", "page", "sort", "sort_order", "search"],
        p1.lookup k = p2.lookup k) →
      moviesValidate p1 = moviesValidate p2 ∧
      (moviesValidate p1).map compileQuery
        = (moviesValidate p2).map compileQuery ∧
      ∀ es, movies p1 es = movies p2 es := by
  intro p1 p2 h
  have h1 := h "limit" (by simp)
  have h2 := h "page" (by simp)
  have h3 := h "sort" (by simp)
  have h4 := h "sort_order" (by simp)
  have h5 := h "search" (by simp)
  have hi : _get_movies_qs_params p1 = _get_movies_qs_params p2 := by
    simp [_get_movies_qs_params, h1, h2, h3, h4, h5]
  have hv : moviesValidate p1 = moviesValidate p2 := by
    unfold moviesValidate
    rw [hi]
  refine ⟨hv, by rw [hv], fun es => ?_⟩
  unfold movies
  rw [hv]

/-- Witness for C9: an extra `junk` key produces the very same outcome
as the request without it. -/
theorem claim_C9_extra_keys_ignored_witness :
    moviesValidate [("limit", "7"), ("junk", "x")]
      = moviesValidate [("limit", "7")] ∧
    (moviesValidate [("limit", "7"), ("junk", "x")]).map compileQuery
      = (moviesValidate [("limit", "7")]).map compileQuery ∧
    ∀ es, movies [("limit", "7"), ("junk", "x")] es
      = movies [("limit", "7")] es :=
  claim_C9_extra_keys_ignored [("limit", "7"), ("junk", "x")]
    [("limit", "7")] (by decide)

/-- Claim C10: an actor id that is a fractional number does not fail the
detail handler: `int(...)` truncates it toward zero (3.9 gives 3, -3.9
gives -3), while the numeric string `"3.9"` is uncoercible and fails
the whole response with a 500. -/
theorem claim_C10_fractional_actor_id :
    (∀ doc : MovieDoc, (∀ a ∈ doc.actors, ∃ q, a.id = JVal.num q) →
      ∃ r, movie (some doc) = .ok r ∧
        r.actors = doc.actors.map
          (fun a => ((pyInt a.id).getD 0, a.name))) ∧
    (∃ r, movie (some fracActorDoc) = .ok r ∧ r.actors = [(3, "alice")]) ∧
    (∃ r, movie (some negFracActorDoc) = .ok r ∧ r.actors = [(-3, "neg")]) ∧
    movie (some fracStringActorDoc) = .internalError ∧
    (movie (some fracStringActorDoc)).status = 500 := by
  refine ⟨?_, ⟨_, rfl, rfl⟩, ⟨_, rfl, rfl⟩, rfl, rfl⟩
  intro doc h
  have hall : ∀ a ∈ doc.actors, (pyInt a.id).isSome := by
    intro a ha
    obtain ⟨q, hq⟩ := h a ha
    rw [hq]
    simp [pyInt]
  have hc := coerceActors_all_some doc.actors hall
  exact ⟨⟨doc.id, doc.title, doc.description, doc.imdb_rating, doc.writers,
      doc.actors.map (fun a => ((pyInt a.id).getD 0, a.name)),
      doc.genre, doc.director⟩, by simp [movie, hc], rfl⟩

/-- Witness for C10 at the document whose actor id is 3.9. -/
theorem claim_C10_fractional_actor_id_witness :
    ∃ r, movie (some fracActorDoc) = .ok r ∧
      r.actors = fracActorDoc.actors.map
        (fun a => ((pyInt a.id).getD 0, a.name)) :=
  claim_C10_fractional_actor_id.1 fracActorDoc
    (by intro a ha
        simp only [fracActorDoc, List.mem_singleton] at ha
        exact ⟨mkRat 39 10, by rw [ha]⟩)

end YandexSearcher
